import Mathlib

/-!
Verification of the SpeakMate voice-agent client
(`frontend/src/hooks/useVoiceAgent.ts`, the `AgentState`-based revision).

The hook is a single-threaded, callback-driven controller.  We embed it
shallowly: the mutable refs and React state cells become the fields of
`AgentModel`, and every browser / timer / message callback becomes a pure
function `AgentModel → AgentModel`.  Timers are modelled by armed/pending
flags plus an explicit "the timer fires now" function, the WebSocket by an
`Option WsReadyState` (the ref `wsRef` together with its `readyState`),
and physical quantities (audio clock times, buffer durations) by rationals.
-/

namespace SpeakMate

/-- The `AgentState` union type of the hook (line 416). -/
inductive AgentState
  | idle
  | connecting
  | ready
  | listening
  | speaking
  | error
  | disconnecting
deriving DecidableEq, Repr

/-- Transcript item kind: `'interim' | 'final'`. -/
inductive TKind
  | interim
  | final
deriving DecidableEq, Repr

/-- A `(word, confidence)` pair of a final transcript. -/
structure Word where
  word : String
  confidence : ℚ
deriving DecidableEq, Repr

/-- `TranscriptItem` of the hook; `new Date()` timestamps are modelled by an
abstract clock value passed to each handler. -/
structure TranscriptItem where
  kind : TKind
  text : String
  confidence : Option ℚ
  words : Option (List Word)
  timestamp : ℕ
deriving DecidableEq, Repr

/-- One grammar correction of a `feedback` message. -/
structure GrammarCorrection where
  original : String
  corrected : String
  explanation : String
deriving DecidableEq, Repr

/-- One vocabulary suggestion of a `feedback` message. -/
structure VocabSuggestion where
  word : String
  definition : String
  usage_example : String
deriving DecidableEq, Repr

/-- One pronunciation tip of a `feedback` message. -/
structure PronunciationTip where
  word : String
  phonetic : String
  tip : String
  confidence_score : ℚ
deriving DecidableEq, Repr

/-- `FeedbackItem` of the hook. -/
structure FeedbackItem where
  text : String
  grammar_corrections : List GrammarCorrection
  vocabulary_suggestions : List VocabSuggestion
  pronunciation_tips : List PronunciationTip
  follow_up_question : Option String
  timestamp : ℕ
deriving DecidableEq, Repr

/-- `ProgressData` of the hook (filled from a `progress` message). -/
structure ProgressData where
  duration : ℚ
  turns : ℕ
  avgConfidence : ℚ
  grammarMistakes : ℕ
deriving DecidableEq, Repr

/-- The parameters of a `connect(level, topic, userId?, voiceId?)` call;
they are captured by the closures of `connect` (init message, retry). -/
structure ConnParams where
  level : String
  topic : String
  user_id : Option String
  voice_id : Option String
deriving DecidableEq, Repr

/-- Inbound messages, after JSON parsing (`WSIncomingMessage`).  The base64
payload of an `audio` message is abstracted to its decoded sample count;
lists that the handler defends with `|| []` are `Option`s here. -/
inductive InMsg
  | sessionStarted (session_id : String) (level : String) (topic : String)
  | interimTranscript (text : String) (confidence : Option ℚ)
  | finalTranscript (text : String) (confidence : Option ℚ)
      (words : Option (List Word))
  | feedbackMsg (text : String) (grammar_corrections : Option (List GrammarCorrection))
      (vocabulary_suggestions : Option (List VocabSuggestion))
      (pronunciation_tips : Option (List PronunciationTip))
      (follow_up_question : Option String)
  | audio (sampleCount : ℕ) (sample_rate : Option ℕ)
  | errorMsg (message : String)
  | progressMsg (duration_seconds : ℚ) (turns_count : ℕ)
      (avg_confidence : ℚ) (grammar_mistakes : ℕ)
deriving DecidableEq, Repr

/-- Outbound messages: the three JSON shapes plus binary audio frames
(abstracted to their byte count). -/
inductive OutMsg
  | initMsg (level : String) (topic : String)
      (user_id : Option String) (voice_id : Option String)
  | text (t : String)
  | stop
  | binaryFrame (bytes : ℕ)
deriving DecidableEq, Repr

/-- `WebSocket.readyState`; `WebSocket.OPEN` is `.opened`.  `close()` is
modelled as moving directly to `.closed` (the CLOSING interval is not
observable by any guard in the hook, which only tests `=== OPEN`). -/
inductive WsReadyState
  | connecting
  | opened
  | closing
  | closed
deriving DecidableEq, Repr

/-- The whole mutable state of one `useVoiceAgent` instance: React state
cells (`state`, `transcript`, `feedback`, `sessionId`, `progress`,
`error`) and refs (`wsRef`, capture resources, `retryCountRef`), plus the
two timers of `connect` (handshake timeout, scheduled backoff redial) and
the trace of messages sent on the socket (`outbound`).
`stateRef` always mirrors `state` (the body of every callback runs to
completion before another starts), so a single `state` field suffices. -/
structure AgentModel where
  state : AgentState
  transcript : List TranscriptItem
  feedback : List FeedbackItem
  sessionId : Option String
  progress : Option ProgressData
  error : Option String
  ws : Option WsReadyState
  captureActive : Bool
  handshakeTimerArmed : Bool
  retryCount : ℕ
  pendingRetry : Option (ℕ × ConnParams)
  connParams : ConnParams
  outbound : List OutMsg
deriving DecidableEq, Repr

/-- The initial model: all React state at its `useState` initial value,
all refs null/zero. -/
def initModel : AgentModel where
  state := AgentState.idle
  transcript := []
  feedback := []
  sessionId := none
  progress := none
  error := none
  ws := none
  captureActive := false
  handshakeTimerArmed := false
  retryCount := 0
  pendingRetry := none
  connParams := ⟨"", "", none, none⟩
  outbound := []

/-- `MAX_BUFFERED_AMOUNT = 1024 * 1024` (line 501). -/
def MAX_BUFFERED_AMOUNT : ℕ := 1024 * 1024

/-- `MAX_RETRIES = 5` (line 587). -/
def MAX_RETRIES : ℕ := 5

/-- `wsRef.current?.readyState === WebSocket.OPEN`. -/
def wsIsOpen (m : AgentModel) : Bool :=
  match m.ws with
  | some r => r = WsReadyState.opened
  | none => false

/-- Transcript update of the `interim_transcript` case (lines 519-529):
drop every interim item, then append the new interim item. -/
def applyInterim (text : String) (confidence : Option ℚ) (now : ℕ)
    (log : List TranscriptItem) : List TranscriptItem :=
  (log.filter fun t => t.kind != TKind.interim)
    ++ [⟨TKind.interim, text, confidence, none, now⟩]

/-- Transcript update of the `final_transcript` case (lines 531-542):
drop every interim item, then append the new final item. -/
def applyFinal (text : String) (confidence : Option ℚ)
    (words : Option (List Word)) (now : ℕ)
    (log : List TranscriptItem) : List TranscriptItem :=
  (log.filter fun t => t.kind != TKind.interim)
    ++ [⟨TKind.final, text, confidence, words, now⟩]

/-- `handleMessage` (lines 511-573).  The `audio` case runs
`playAudio` → enqueue → `processAudioQueue`, whose scheduling loop sets
the state to `SPEAKING` (line 785); the queue's timing arithmetic is
modelled separately by `scheduleStarts` below. -/
def handleMessage (now : ℕ) (msg : InMsg) (m : AgentModel) : AgentModel :=
  match msg with
  | InMsg.sessionStarted sid _ _ =>
      { m with sessionId := some sid, state := AgentState.ready, error := none }
  | InMsg.interimTranscript t c =>
      { m with transcript := applyInterim t c now m.transcript }
  | InMsg.finalTranscript t c w =>
      { m with transcript := applyFinal t c w now m.transcript }
  | InMsg.feedbackMsg t gcs vss pts fq =>
      { m with feedback := m.feedback
          ++ [⟨t, gcs.getD [], vss.getD [], pts.getD [], fq, now⟩] }
  | InMsg.audio _ _ =>
      { m with state := AgentState.speaking }
  | InMsg.errorMsg msg =>
      { m with error := some msg, state := AgentState.error }
  | InMsg.progressMsg d t a g =>
      { m with progress := some ⟨d, t, a, g⟩ }

/-- Body of `connect` (lines 590-607): bail out if the socket is already
open; otherwise enter `CONNECTING`, arm the 10-second handshake timer,
create a fresh WebSocket (readyState CONNECTING) and remember the call's
parameters (they are captured by the `onopen`/`onclose` closures).
Neither `retryCount` nor `pendingRetry` is touched. -/
def connect (p : ConnParams) (m : AgentModel) : AgentModel :=
  if wsIsOpen m then m
  else
    { m with state := AgentState.connecting,
             handshakeTimerArmed := true,
             ws := some WsReadyState.connecting,
             connParams := p }

/-- `ws.onopen` (lines 609-619): the browser moved `readyState` to OPEN;
the handler clears the handshake timer (`clearTimeout(timeoutId)`) and
sends the single `init` message. -/
def onOpen (m : AgentModel) : AgentModel :=
  { m with handshakeTimerArmed := false,
           ws := some WsReadyState.opened,
           outbound := m.outbound
             ++ [OutMsg.initMsg m.connParams.level m.connParams.topic
                   m.connParams.user_id m.connParams.voice_id] }

/-- The 10-second `setTimeout` callback of `connect` (lines 596-603): it
runs only if it was not cleared; if the state is still `CONNECTING` it
records the error, enters `ERROR` and closes the socket, else it does
nothing.  A fired timer is spent. -/
def onHandshakeTimerFire (m : AgentModel) : AgentModel :=
  if m.handshakeTimerArmed then
    if m.state = AgentState.connecting then
      { m with handshakeTimerArmed := false,
               error := some "Connection timed out",
               state := AgentState.error,
               ws := m.ws.map fun _ => WsReadyState.closed }
    else { m with handshakeTimerArmed := false }
  else m

/-- `ws.onclose` (lines 636-647): the socket is now closed; if the state
is neither `DISCONNECTING` nor `IDLE` and the retry budget remains,
schedule `connect` with the same parameters after `2^n * 1000` ms and
increment the counter; if the budget is spent, fall to `IDLE`. -/
def onClose (m : AgentModel) : AgentModel :=
  if m.state ≠ AgentState.disconnecting ∧ m.state ≠ AgentState.idle
      ∧ m.retryCount < MAX_RETRIES then
    { m with ws := m.ws.map fun _ => WsReadyState.closed,
             pendingRetry := some (2 ^ m.retryCount * 1000, m.connParams),
             retryCount := m.retryCount + 1 }
  else if m.state ≠ AgentState.disconnecting ∧ m.state ≠ AgentState.idle then
    { m with ws := m.ws.map fun _ => WsReadyState.closed,
             state := AgentState.idle }
  else
    { m with ws := m.ws.map fun _ => WsReadyState.closed }

/-- The backoff `setTimeout(() => connect(...), backoff)` callback
(line 642): if a redial is pending, it re-runs `connect` with the
captured parameters.  Nothing in the hook ever cancels this timer. -/
def onRetryFire (m : AgentModel) : AgentModel :=
  match m.pendingRetry with
  | some (_, p) => connect p { m with pendingRetry := none }
  | none => m

/-- `disconnect` (lines 657-673), net effect of its synchronous body:
`DISCONNECTING` is set and immediately overwritten by `IDLE` before any
other callback can observe it; `stop` is sent iff the socket was open;
the socket ref is nulled, capture released, session id cleared and the
retry counter zeroed.  `pendingRetry` is NOT touched: the hook never
stores the backoff timer id, so it cannot clear it. -/
def disconnect (m : AgentModel) : AgentModel :=
  { m with state := AgentState.idle,
           ws := none,
           outbound := if m.ws = some WsReadyState.opened
             then m.outbound ++ [OutMsg.stop] else m.outbound,
           captureActive := false,
           sessionId := none,
           retryCount := 0 }

/-- `startListening` (lines 676-740): a no-op unless the state is `READY`
or `SPEAKING`; otherwise acquire the microphone and worklet
(`micGranted` abstracts the success of `getUserMedia`/`addModule`) and
enter `LISTENING`, or enter `ERROR` on denial. -/
def startListening (micGranted : Bool) (m : AgentModel) : AgentModel :=
  if m.state ≠ AgentState.ready ∧ m.state ≠ AgentState.speaking then m
  else if micGranted then
    { m with captureActive := true, state := AgentState.listening }
  else
    { m with error := some "Microphone access denied",
             state := AgentState.error }

/-- `stopListening` (lines 742-747). -/
def stopListening (m : AgentModel) : AgentModel :=
  if m.state = AgentState.listening then
    { m with state := AgentState.ready, captureActive := false }
  else m

/-- The capture worklet's `port.onmessage` handler (lines 719-727): send
the frame iff the socket exists and is OPEN, the state is `LISTENING`,
and `bufferedAmount` does not exceed `MAX_BUFFERED_AMOUNT`; otherwise
drop it, touching nothing. -/
def onWorkletFrame (bufferedAmount frameBytes : ℕ) (m : AgentModel) :
    AgentModel :=
  if wsIsOpen m = true ∧ m.state = AgentState.listening then
    if bufferedAmount > MAX_BUFFERED_AMOUNT then m
    else { m with outbound := m.outbound ++ [OutMsg.binaryFrame frameBytes] }
  else m

/-- `sendTextMessage` (lines 749-759): if the socket is open, send one
`text` message and append a final transcript item with confidence 1.0;
otherwise do nothing at all. -/
def sendTextMessage (text : String) (now : ℕ) (m : AgentModel) :
    AgentModel :=
  if wsIsOpen m then
    { m with outbound := m.outbound ++ [OutMsg.text text],
             transcript := m.transcript
               ++ [⟨TKind.final, text, some 1, none, now⟩] }
  else m

/-- `source.onended` of a scheduled buffer (lines 787-791), guarded by
`audioContext.currentTime >= nextStartTimeRef.current - 0.05`
(`timeReached`): if the state is `SPEAKING` it becomes `READY`, any
other state is left unchanged.  Capture activity is never consulted. -/
def onPlaybackEnded (timeReached : Bool) (m : AgentModel) : AgentModel :=
  if timeReached then
    { m with state := if m.state = AgentState.speaking
        then AgentState.ready else m.state }
  else m

/-- Timing data of one queued playback buffer: `arrival` is
`audioContext.currentTime` sampled when the loop pulls the buffer
(line 777), `duration` is `audioBuffer.duration`. -/
structure ChunkTiming where
  arrival : ℚ
  duration : ℚ
deriving DecidableEq, Repr

/-- `audioBuffer.duration` of a buffer created with
`createBuffer(1, int16Array.length, sampleRate)`:
`sample_count / sample_rate` (default rate 24000, line 556). -/
def bufferDuration (sampleCount : ℕ) (sample_rate : Option ℕ) : ℚ :=
  (sampleCount : ℚ) / ((sample_rate.getD 24000 : ℕ) : ℚ)

/-- Start-time computation of `processAudioQueue` (lines 776-781): keep
the cursor, unless it lies in the past, in which case restart at
`currentTime + 0.1` (100 ms of scheduling slack). -/
def scheduleStart (cursor now : ℚ) : ℚ :=
  if cursor < now then now + 1 / 10 else cursor

/-- The sequence of start times the draining loop of `processAudioQueue`
assigns to the queued buffers (lines 770-784): each buffer starts at
`scheduleStart cursor arrival` and the cursor advances by the buffer's
duration (`nextStartTimeRef.current = startTime + audioBuffer.duration`). -/
def scheduleStarts (cursor : ℚ) : List ChunkTiming → List ℚ
  | [] => []
  | c :: rest =>
      scheduleStart cursor c.arrival
        :: scheduleStarts (scheduleStart cursor c.arrival + c.duration) rest

/-- Connection parameters used by the concrete traces below. -/
def demoParams : ConnParams := ⟨"beginner", "travel", none, none⟩

/-- The computed start time never lies before the cursor. -/
theorem le_scheduleStart (cursor now : ℚ) : cursor ≤ scheduleStart cursor now := by
  unfold scheduleStart
  split
  · linarith
  · exact le_refl cursor

/-- C1: for every queue of audio buffers (with non-decreasing arrival
times), the start time `processAudioQueue` computes for buffer `i+1` is
at least the start time of buffer `i` plus its duration: the cursor is
advanced by each buffer's duration, and a cursor lying in the past is
reset forward to `now + 100 ms`, so scheduled intervals never overlap. -/
theorem playback_no_overlap (cursor : ℚ) (chunks : List ChunkTiming)
    (hmono : List.Pairwise (fun a b => a.arrival ≤ b.arrival) chunks)
    (i : ℕ) (s1 s2 : ℚ) (c : ChunkTiming)
    (h1 : (scheduleStarts cursor chunks).get? i = some s1)
    (h2 : (scheduleStarts cursor chunks).get? (i + 1) = some s2)
    (hc : chunks.get? i = some c) :
    s1 + c.duration ≤ s2 := by
  induction chunks generalizing cursor i with
  | nil => simp [scheduleStarts] at h1
  | cons d rest ih =>
    cases i with
    | zero =>
      simp [scheduleStarts] at h1 hc
      cases rest with
      | nil => simp [scheduleStarts] at h2
      | cons e es =>
        simp [scheduleStarts] at h2
        subst h1 hc h2
        exact le_scheduleStart _ _
    | succ j =>
      simp only [scheduleStarts, List.get?_cons_succ] at h1 h2 hc
      exact ih _ (List.Pairwise.of_cons hmono) j h1 h2 hc

/-- Witness for C1: a concrete two-buffer queue. -/
theorem playback_no_overlap_wit :
    (scheduleStarts 0 [⟨0, 1⟩, ⟨0, 2⟩]).get? 0 = some 0
    ∧ (scheduleStarts 0 [⟨0, 1⟩, ⟨0, 2⟩]).get? 1 = some 1
    ∧ (0 : ℚ) + (ChunkTiming.mk 0 1).duration ≤ 1 :=
  ⟨by decide, by norm_num [scheduleStarts, scheduleStart],
    playback_no_overlap 0 [⟨0, 1⟩, ⟨0, 2⟩] (by decide) 0 0 1 ⟨0, 1⟩
      (by decide) (by norm_num [scheduleStarts, scheduleStart]) (by decide)⟩

/-- Removing interims then appending an interim leaves the
interim-free part of the log unchanged. -/
theorem filter_applyInterim (t : String) (c : Option ℚ) (n : ℕ)
    (log : List TranscriptItem) :
    (applyInterim t c n log).filter (fun x => x.kind != TKind.interim)
      = log.filter (fun x => x.kind != TKind.interim) := by
  simp [applyInterim, List.filter_append, List.filter_filter]

/-- Any run of interim updates leaves the interim-free part of the log
unchanged. -/
theorem filter_foldl_interims (ev : List (String × Option ℚ × ℕ))
    (log : List TranscriptItem) :
    ((ev.foldl (fun acc e => applyInterim e.1 e.2.1 e.2.2 acc) log).filter
        (fun x => x.kind != TKind.interim))
      = log.filter (fun x => x.kind != TKind.interim) := by
  induction ev generalizing log with
  | nil => rfl
  | cons e es ih => rw [List.foldl_cons, ih, filter_applyInterim]

/-- On a two-valued kind, keeping non-interim items is keeping final ones. -/
theorem filter_notInterim_eq_filter_final (log : List TranscriptItem) :
    log.filter (fun x => x.kind != TKind.interim)
      = log.filter (fun x => x.kind == TKind.final) := by
  apply List.filter_congr
  intro a _
  cases h : a.kind <;> rfl

/-- C2: each `interim_transcript`/`final_transcript` handler first drops
every interim item and then appends the new item; hence after any
sequence of interim updates followed by one final update, the log is
exactly the previous final items, in order, followed by the one new
final item, and it contains zero interim items. -/
theorem transcript_interims_then_final
    (log : List TranscriptItem) (ev : List (String × Option ℚ × ℕ))
    (tf : String) (cf : Option ℚ) (wf : Option (List Word)) (nf : ℕ) :
    applyFinal tf cf wf nf
        (ev.foldl (fun acc e => applyInterim e.1 e.2.1 e.2.2 acc) log)
      = log.filter (fun x => x.kind == TKind.final)
          ++ [⟨TKind.final, tf, cf, wf, nf⟩]
    ∧ (applyFinal tf cf wf nf
        (ev.foldl (fun acc e => applyInterim e.1 e.2.1 e.2.2 acc) log)).countP
        (fun x => x.kind == TKind.interim) = 0 := by
  have hmain : applyFinal tf cf wf nf
      (ev.foldl (fun acc e => applyInterim e.1 e.2.1 e.2.2 acc) log)
      = log.filter (fun x => x.kind == TKind.final)
          ++ [⟨TKind.final, tf, cf, wf, nf⟩] := by
    unfold applyFinal
    rw [filter_foldl_interims, filter_notInterim_eq_filter_final]
  refine ⟨hmain, ?_⟩
  rw [hmain, List.countP_append]
  have h1 : (log.filter (fun x => x.kind == TKind.final)).countP
      (fun x => x.kind == TKind.interim) = 0 := by
    rw [List.countP_eq_zero]
    intro a ha
    have hfin := (List.mem_filter.mp ha).2
    cases h : a.kind
    · rw [h] at hfin; exact absurd hfin (by decide)
    · decide
  rw [h1]
  rfl

/-- C3 counterexample: enter `CONNECTING`, the transport opens within
the window, and the 10-second timer moment then passes with no
`session_started` ever received: `onopen` already cleared the timer, so
the state is still `CONNECTING`, no error text is recorded and the
socket stays open — the attempt does not fail. -/
theorem handshake_window_cex :
    (onHandshakeTimerFire (onOpen (connect demoParams initModel))).state
        = AgentState.connecting
    ∧ (onHandshakeTimerFire (onOpen (connect demoParams initModel))).error = none
    ∧ (onHandshakeTimerFire (onOpen (connect demoParams initModel))).ws
        = some WsReadyState.opened := by
  decide

/-- C3 (amended): the 10-second window runs only until the transport
opens — `ws.onopen` clears the timer, handshake completion does not
enter into it; whenever the timer fires while still armed and the state
is still `CONNECTING` (the transport never opened), the attempt fails:
state `ERROR`, error text recorded, socket forcibly closed. -/
theorem handshake_timer_amended (m : AgentModel) :
    (onOpen m).handshakeTimerArmed = false
    ∧ (m.handshakeTimerArmed = true → m.state = AgentState.connecting →
        (onHandshakeTimerFire m).state = AgentState.error
        ∧ (onHandshakeTimerFire m).error = some "Connection timed out"
        ∧ (onHandshakeTimerFire m).ws = m.ws.map fun _ => WsReadyState.closed) := by
  refine ⟨rfl, fun ha hs => ?_⟩
  simp [onHandshakeTimerFire, ha, hs]

/-- Witness for C3's amended theorem: a fresh `connect` whose transport
never opens; the timer fires and the attempt fails. -/
theorem handshake_timer_amended_wit :
    (onHandshakeTimerFire (connect demoParams initModel)).state = AgentState.error
    ∧ (onHandshakeTimerFire (connect demoParams initModel)).error
        = some "Connection timed out" := by
  have h := (handshake_timer_amended (connect demoParams initModel)).2
    (by decide) (by decide)
  exact ⟨h.1, h.2.1⟩

/-- C4 counterexample: a non-user closure schedules a backoff redial;
the user then disconnects (reaching `IDLE`), but the pending timer is
not cancelled — when it fires, `connect` runs again and the machine
re-enters `CONNECTING` after the user-initiated disconnect. -/
theorem disconnect_pending_retry_cex :
    (disconnect (onClose (connect demoParams initModel))).state = AgentState.idle
    ∧ (disconnect (onClose (connect demoParams initModel))).pendingRetry
        = some (1000, demoParams)
    ∧ (onRetryFire (disconnect (onClose (connect demoParams initModel)))).state
        = AgentState.connecting := by
  decide

/-- C4 (amended): `disconnect()` from any state nets to `IDLE`, releases
capture, clears the session id and zeroes the retry counter, and a
repeated `disconnect()` is a no-op; but it cancels no timer — the
scheduled backoff redial (`pendingRetry`) is untouched, so a retry
pending at disconnect time still fires afterwards. -/
theorem disconnect_amended (m : AgentModel) :
    (disconnect m).state = AgentState.idle
    ∧ (disconnect m).captureActive = false
    ∧ (disconnect m).sessionId = none
    ∧ (disconnect m).retryCount = 0
    ∧ (disconnect m).pendingRetry = m.pendingRetry
    ∧ disconnect (disconnect m) = disconnect m := by
  refine ⟨rfl, rfl, rfl, rfl, rfl, ?_⟩
  simp [disconnect]

/-- The model after `connect` and five consecutive non-user-initiated
closures, each but the last followed by its scheduled redial. -/
def fiveClosures : AgentModel :=
  onClose (onRetryFire (onClose (onRetryFire (onClose (onRetryFire
    (onClose (onRetryFire (onClose (connect demoParams initModel)))))))))

/-- C5 counterexample: after exactly 5 consecutive non-user-initiated
closures the machine has not given up: the fifth closure (counter 4 < 5)
still schedules a redial, after 2^4 = 16 seconds, and the state is
`CONNECTING`, not `IDLE`; only the sixth closure transitions to `IDLE`
with nothing scheduled. -/
theorem backoff_five_closures_cex :
    fiveClosures.retryCount = 5
    ∧ fiveClosures.pendingRetry = some (16000, demoParams)
    ∧ fiveClosures.state = AgentState.connecting
    ∧ (onClose (onRetryFire fiveClosures)).state = AgentState.idle
    ∧ (onClose (onRetryFire fiveClosures)).pendingRetry = none := by
  decide

/-- C5 (amended): at a non-user-initiated closure with retry counter
n < 5, a redial with the same session parameters is scheduled after
exactly 2^n seconds and the counter increments (the state is unchanged
at that point); the silent transition to `IDLE` with no redial happens
at a closure whose counter has already reached 5 — the sixth
consecutive closure, after five scheduled retries, not the fifth. -/
theorem backoff_policy_amended (m : AgentModel) :
    (m.state ≠ AgentState.disconnecting → m.state ≠ AgentState.idle →
      m.retryCount < MAX_RETRIES →
      (onClose m).pendingRetry = some (2 ^ m.retryCount * 1000, m.connParams)
      ∧ (onClose m).retryCount = m.retryCount + 1
      ∧ (onClose m).state = m.state)
    ∧ (m.state ≠ AgentState.disconnecting → m.state ≠ AgentState.idle →
      MAX_RETRIES ≤ m.retryCount →
      (onClose m).state = AgentState.idle
      ∧ (onClose m).pendingRetry = m.pendingRetry
      ∧ (onClose m).retryCount = m.retryCount) := by
  constructor
  · intro h1 h2 h3
    unfold onClose
    rw [if_pos ⟨h1, h2, h3⟩]
    exact ⟨rfl, rfl, rfl⟩
  · intro h1 h2 h3
    unfold onClose
    rw [if_neg, if_pos ⟨h1, h2⟩]
    · exact ⟨rfl, rfl, rfl⟩
    · rintro ⟨-, -, hlt⟩
      exact absurd (lt_of_le_of_lt h3 hlt) (lt_irrefl _)

/-- Witness for C5's amended theorem: the first closure of a fresh
connection schedules a 1-second redial and moves the counter to 1. -/
theorem backoff_policy_amended_wit :
    (onClose (connect demoParams initModel)).pendingRetry
        = some (1000, demoParams)
    ∧ (onClose (connect demoParams initModel)).retryCount = 1 := by
  have h := (backoff_policy_amended (connect demoParams initModel)).1
    (by decide) (by decide) (by decide)
  exact ⟨h.1, h.2.1⟩

/-- The model after three failed dials: retry counter 3, nothing pending. -/
def threeFailures : AgentModel :=
  onRetryFire (onClose (onRetryFire (onClose (onRetryFire (onClose
    (connect demoParams initModel))))))

/-- C6 counterexample: with the counter at 3, a successful handshake
(`session_started`) leaves it at 3 and so does `connect()`, while
`disconnect()` — an operation the claim excludes — zeroes it. -/
theorem retry_counter_reset_cex :
    threeFailures.retryCount = 3
    ∧ (handleMessage 0 (InMsg.sessionStarted "abc123" "beginner" "travel")
        threeFailures).retryCount = 3
    ∧ (connect demoParams threeFailures).retryCount = 3
    ∧ (disconnect threeFailures).retryCount = 0 := by
  decide

/-- C6 (amended): the retry counter is zeroed only by `disconnect()`;
`connect()` and every inbound message — `session_started` included —
leave it unchanged, as do the capture, text-send, frame and playback
operations; only `ws.onclose` moves it, by one, while budget remains. -/
theorem retry_counter_frame_amended (m : AgentModel) (now : ℕ) (msg : InMsg)
    (p : ConnParams) (t : String) (b f : ℕ) (g tr : Bool) :
    (handleMessage now msg m).retryCount = m.retryCount
    ∧ (connect p m).retryCount = m.retryCount
    ∧ (disconnect m).retryCount = 0
    ∧ (sendTextMessage t now m).retryCount = m.retryCount
    ∧ (startListening g m).retryCount = m.retryCount
    ∧ (stopListening m).retryCount = m.retryCount
    ∧ (onWorkletFrame b f m).retryCount = m.retryCount
    ∧ (onOpen m).retryCount = m.retryCount
    ∧ (onHandshakeTimerFire m).retryCount = m.retryCount
    ∧ (onPlaybackEnded tr m).retryCount = m.retryCount
    ∧ ((onClose m).retryCount = m.retryCount
        ∨ (onClose m).retryCount = m.retryCount + 1) := by
  refine ⟨?_, ?_, rfl, ?_, ?_, ?_, ?_, rfl, ?_, ?_, ?_⟩
  · cases msg <;> rfl
  · unfold connect; split <;> rfl
  · unfold sendTextMessage; split <;> rfl
  · unfold startListening
    split
    · rfl
    · split <;> rfl
  · unfold stopListening; split <;> rfl
  · unfold onWorkletFrame
    split
    · split <;> rfl
    · rfl
  · unfold onHandshakeTimerFire
    split
    · split <;> rfl
    · rfl
  · unfold onPlaybackEnded; split <;> rfl
  · unfold onClose
    split
    · right; rfl
    · split
      · left; rfl
      · left; rfl

/-- C7: a captured frame is transmitted iff the socket exists and is
OPEN, the state is `LISTENING`, and the connection's unsent byte count
is at most `MAX_BUFFERED_AMOUNT` (1 MiB); in every other case the frame
is dropped with no state change whatsoever. -/
theorem frame_backpressure (m : AgentModel) (b f : ℕ) :
    ((onWorkletFrame b f m).outbound = m.outbound ++ [OutMsg.binaryFrame f]
      ↔ wsIsOpen m = true ∧ m.state = AgentState.listening
          ∧ b ≤ MAX_BUFFERED_AMOUNT)
    ∧ (onWorkletFrame b f m = m
        ∨ onWorkletFrame b f m
            = { m with outbound := m.outbound ++ [OutMsg.binaryFrame f] }) := by
  unfold onWorkletFrame
  by_cases h1 : wsIsOpen m = true ∧ m.state = AgentState.listening
  · rw [if_pos h1]
    by_cases h2 : b > MAX_BUFFERED_AMOUNT
    · rw [if_pos h2]
      refine ⟨⟨fun he => ?_, ?_⟩, Or.inl rfl⟩
      · have hl := congrArg List.length he
        simp at hl
      · rintro ⟨-, -, hle⟩
        omega
    · rw [if_neg h2]
      exact ⟨⟨fun _ => ⟨h1.1, h1.2, by omega⟩, fun _ => rfl⟩, Or.inr rfl⟩
  · rw [if_neg h1]
    refine ⟨⟨fun he => ?_, ?_⟩, Or.inl rfl⟩
    · have hl := congrArg List.length he
      simp at hl
    · rintro ⟨ha, hb, -⟩
      exact absurd ⟨ha, hb⟩ h1

/-- The model of a live listening session: connected, handshake done,
capture running. -/
def listeningModel : AgentModel :=
  startListening true (handleMessage 0
    (InMsg.sessionStarted "abc123" "intermediate" "travel")
    (onOpen (connect demoParams initModel)))

/-- Witness for C7: a 4096-byte frame with 0 unsent bytes is sent. -/
theorem frame_backpressure_wit :
    (onWorkletFrame 0 4096 listeningModel).outbound
      = listeningModel.outbound ++ [OutMsg.binaryFrame 4096] :=
  (frame_backpressure listeningModel 0 4096).1.mpr
    ⟨by decide, by decide, by decide⟩

/-- C8: `startListening` starts capture and enters `LISTENING` only from
`READY` or `SPEAKING` (barge-in from `SPEAKING` allowed); from any other
state it is a no-op returning the model — state and capture resource —
unchanged. -/
theorem start_listening_gated (m : AgentModel) (g : Bool) :
    (m.state ≠ AgentState.ready → m.state ≠ AgentState.speaking →
      startListening g m = m)
    ∧ (m.state = AgentState.ready ∨ m.state = AgentState.speaking →
      (startListening true m).state = AgentState.listening
      ∧ (startListening true m).captureActive = true) := by
  constructor
  · intro h1 h2
    unfold startListening
    rw [if_pos ⟨h1, h2⟩]
  · intro h
    have hn : ¬(m.state ≠ AgentState.ready ∧ m.state ≠ AgentState.speaking) := by
      rintro ⟨ha, hb⟩
      cases h with
      | inl h2 => exact ha h2
      | inr h2 => exact hb h2
    unfold startListening
    rw [if_neg hn, if_pos rfl]
    exact ⟨rfl, rfl⟩

/-- The model right after a successful handshake: state `READY`. -/
def readyModel : AgentModel :=
  handleMessage 0 (InMsg.sessionStarted "abc123" "intermediate" "travel")
    (onOpen (connect demoParams initModel))

/-- Witness for C8: no-op from `IDLE`, capture start from `READY`. -/
theorem start_listening_gated_wit :
    startListening true initModel = initModel
    ∧ (startListening true readyModel).state = AgentState.listening :=
  ⟨(start_listening_gated initModel true).1 (by decide) (by decide),
    ((start_listening_gated readyModel true).2 (Or.inl (by decide))).1⟩

/-- The listening session after an audio chunk arrives (barge-in):
`processAudioQueue` signals `SPEAKING` while capture stays active. -/
def bargeInModel : AgentModel :=
  handleMessage 1 (InMsg.audio 24000 (some 24000)) listeningModel

/-- C9 counterexample: a chunk arrives during `LISTENING` with capture
active; at drain time capture is still active, yet the state returns to
`READY`, not `LISTENING` — the drain handler maps `SPEAKING` to `READY`
without consulting capture activity. -/
theorem drain_barge_in_cex :
    listeningModel.state = AgentState.listening
    ∧ bargeInModel.state = AgentState.speaking
    ∧ bargeInModel.captureActive = true
    ∧ (onPlaybackEnded true bargeInModel).state = AgentState.ready
    ∧ (onPlaybackEnded true bargeInModel).captureActive = true := by
  decide

/-- C9 (amended): scheduling a chunk signals `SPEAKING` unconditionally;
when the last buffer's audio finishes (cursor time reached), the state
returns to `READY` exactly when it is `SPEAKING` at that moment and is
left unchanged otherwise (it stays `LISTENING` only if `startListening`
was re-invoked during speech); capture activity is never consulted, so
after a chunk arrives during `LISTENING` the drain yields `READY` even
though capture is still active. -/
theorem drain_transition_amended (m : AgentModel) (now sc : ℕ)
    (sr : Option ℕ) (tr : Bool) :
    (handleMessage now (InMsg.audio sc sr) m).state = AgentState.speaking
    ∧ (onPlaybackEnded true m).state
        = (if m.state = AgentState.speaking then AgentState.ready else m.state)
    ∧ (onPlaybackEnded tr m).captureActive = m.captureActive
    ∧ (onPlaybackEnded true (handleMessage now (InMsg.audio sc sr) m)).state
        = AgentState.ready := by
  refine ⟨rfl, rfl, ?_, ?_⟩
  · unfold onPlaybackEnded
    split <;> rfl
  · rfl

/-- The model of an open connection (before the handshake completes). -/
def openModel : AgentModel := onOpen (connect demoParams initModel)

/-- C10: with the socket open, `sendTextMessage` sends exactly one
outbound `text` message and appends exactly one final transcript item
carrying the text with confidence 1.0; with the socket not open it is a
no-op returning the model unchanged. -/
theorem send_text_message_spec (t : String) (now : ℕ) (m : AgentModel) :
    (wsIsOpen m = true →
      sendTextMessage t now m
        = { m with outbound := m.outbound ++ [OutMsg.text t],
                   transcript := m.transcript
                     ++ [⟨TKind.final, t, some 1, none, now⟩] })
    ∧ (wsIsOpen m = false → sendTextMessage t now m = m) := by
  constructor
  · intro h
    unfold sendTextMessage
    rw [if_pos h]
  · intro h
    unfold sendTextMessage
    rw [if_neg (by simp [h])]

/-- Witness for C10: sending on an open connection. -/
theorem send_text_message_spec_wit :
    sendTextMessage "hello" 7 openModel
      = { openModel with
            outbound := openModel.outbound ++ [OutMsg.text "hello"],
            transcript := openModel.transcript
              ++ [⟨TKind.final, "hello", some 1, none, 7⟩] } :=
  (send_text_message_spec "hello" 7 openModel).1 (by decide)

end SpeakMate
